import Mathlib

/-!
Verification development for matrix-websockets-proxy (Go).

The repository bridges the Matrix long-polling `/sync` REST API into two
streaming transports: a websocket endpoint `/stream` and a Server-Sent-Events
endpoint `/events`.  The handlers `serveStream` and `serveEventSource`, the
error writers `httpError` / `handleHttpError` and the payload rewriter
`PopNextBatch` are embedded below.  Go strings that the code slices by byte
(the `Authorization` header value) are modelled as lists of bytes
(`List Nat`); strings only compared for equality or concatenated are kept as
Lean `String`s.  The `proxy` package (the sync client) is external to the
handler sources; its calls are modelled as trace actions whose outcomes are
supplied by an oracle, following the spec where the handler sources do not
determine them.
-/



/-- A Go string viewed as its byte sequence (each entry < 256). -/
abbrev GoBytes := List Nat

/-- The byte sequence of the Go literal `"Bearer "` (7 bytes). -/
def bearerLiteral : GoBytes := [66, 101, 97, 114, 101, 114, 32]

/-- Embeds the credential-resolution block shared by `serveStream`
(main.go lines 62-69) and `serveEventSource` (lines 79-86):

    accessToken := req.Header.Get("Authorization")
    if accessToken != "" {
        if accessToken[0:6] == "Bearer " {
            accessToken = accessToken[7:len(accessToken)]
        }
    } else {
        accessToken = req.URL.Query().Get("access_token")
    }

`none` models the Go runtime panic `slice bounds out of range` raised by
`accessToken[0:6]` when the header value is shorter than 6 bytes. -/
def resolveAccessToken (auth param : GoBytes) : Option GoBytes :=
  if auth ≠ [] then
    if 6 ≤ auth.length then
      if auth.take 6 = bearerLiteral then some (auth.drop 7) else some auth
    else
      none
  else
    some param

/-- Embeds the cursor-resolution block of `serveEventSource` (lines 93-98):
the `last-event-id` header wins; the `since` query parameter is consulted
only when the header is absent (Go's `Header.Get` returns `""` then). -/
def resolveNextSyncBatch (lastEventId since : String) : String :=
  if lastEventId = "" then since else lastEventId

/-- The `proxy.HttpError` value as used by the handlers: `handleHttpError`
reads its `StatusCode`, `ContentType` and `Body` fields (main.go lines
111-115).  The body is kept opaque as a byte sequence. -/
structure HttpError where
  StatusCode : Nat
  ContentType : String
  Body : GoBytes
deriving DecidableEq

/-- The error values the handlers can receive from `proxy.Client.Sync`, as
discriminated by the `switch err.(type)` in both handlers:
`*proxy.MatrixError` (a structured upstream error embedding an `HttpError`
plus its own code/message, per spec section 3 — the `proxy` package itself is
outside the handler sources), `*proxy.HttpError`, and any other error value
(the `default` branch). -/
inductive SyncErr where
  | matrix (he : HttpError) (errcode errmsg : String)
  | http (he : HttpError)
  | other
deriving DecidableEq

/-- The observable effect of writing one plain HTTP error response:
the status, content-type and body passed to the `http.ResponseWriter`. -/
structure ErrResponse where
  status : Nat
  contentType : String
  body : GoBytes
deriving DecidableEq

/-- Byte sequence of an ASCII Lean string (all our literals are ASCII). -/
def asciiBytes (s : String) : GoBytes := s.data.map Char.toNat

/-- Go's `http.StatusText` restricted to the status codes the handlers pass
to it (405 and 500). -/
def statusText (status : Nat) : String :=
  if status = 405 then "Method Not Allowed"
  else if status = 500 then "Internal Server Error"
  else ""

/-- Embeds `httpError` (main.go lines 107-109): `http.Error(w,
http.StatusText(status), status)`, which writes the status text plus a
newline with content-type `text/plain; charset=utf-8`. -/
def httpError (status : Nat) : ErrResponse :=
  { status := status,
    contentType := "text/plain; charset=utf-8",
    body := asciiBytes (statusText status) ++ [10] }

/-- Embeds `handleHttpError` (main.go lines 111-115): sets the content-type
to `errp.ContentType`, writes header `errp.StatusCode`, writes `errp.Body`. -/
def handleHttpError (errp : HttpError) : ErrResponse :=
  { status := errp.StatusCode, contentType := errp.ContentType, body := errp.Body }

/-- Embeds the `switch err.(type)` error-classification block shared by both
handlers (main.go lines 80-87, events handler lines 108-118): a
`*proxy.MatrixError` relays its embedded `HttpError`, a `*proxy.HttpError`
relays itself, and anything else becomes `httpError(500)`. -/
def classifySyncError : SyncErr → ErrResponse
  | .matrix he _ _ => handleHttpError he
  | .http he => handleHttpError he
  | .other => httpError 500

/-- A JSON value, the model of what `encoding/json` parses and emits.
Numbers are restricted to integers (the only numeric field the code types is
the `int` field `device_one_time_keys_count`); objects keep their fields in
order. -/
inductive Json where
  | null
  | bool (b : Bool)
  | num (n : Int)
  | str (s : String)
  | arr (xs : List Json)
  | obj (fields : List (String × Json))

/-- The struct `SyncResponse` declared inside `PopNextBatch` (events handler
lines 207-216).  The struct tags read `json:"account_data",omit` — the
text after the closing quote is outside the `json` tag value, so the
effective tag is the bare field name with NO `omitempty` option: every field
is always marshalled.  The six `interface\x7b\x7d` fields hold arbitrary
decoded JSON (`Json.null` for Go `nil`). -/
structure SyncResponse where
  AccountData : Json
  ToDevice : Json
  DeviceLists : Json
  Presence : Json
  Rooms : Json
  Groups : Json
  DeviceOTKCount : Int
  NextBatch : String

/-- The zero value of `SyncResponse`: nil interfaces, 0, empty string. -/
def zeroSyncResponse : SyncResponse :=
  { AccountData := .null, ToDevice := .null, DeviceLists := .null,
    Presence := .null, Rooms := .null, Groups := .null,
    DeviceOTKCount := 0, NextBatch := "" }

/-- ASCII lower-casing of a byte, for `encoding/json`'s case-insensitive
field-name match. -/
def lowerByte (n : Nat) : Nat := if 65 ≤ n ∧ n ≤ 90 then n + 32 else n

/-- Case-insensitive (ASCII-folded) string comparison, the field-name match
of `encoding/json`. -/
def eqFold (a b : String) : Prop :=
  a.data.map (fun c => lowerByte c.toNat) = b.data.map (fun c => lowerByte c.toNat)

instance (a b : String) : Decidable (eqFold a b) := by
  unfold eqFold
  infer_instance

/-- One step of `json.Unmarshal` into `SyncResponse`: assign one JSON
object member to the struct field whose tag name matches the key
(`encoding/json` matches exactly, else case-insensitively; all eight tag
names here are lowercase and pairwise distinct, so both collapse to one
case-folded comparison).  JSON `null` sets an interface field to nil and
leaves primitive fields untouched; a wrongly-typed value for the `int` or
`string` field is a decode error (`none`); an unmatched key is ignored. -/
def applyField (r : SyncResponse) (k : String) (v : Json) : Option SyncResponse :=
  if eqFold k "account_data" then some { r with AccountData := v }
  else if eqFold k "to_device" then some { r with ToDevice := v }
  else if eqFold k "device_lists" then some { r with DeviceLists := v }
  else if eqFold k "presence" then some { r with Presence := v }
  else if eqFold k "rooms" then some { r with Rooms := v }
  else if eqFold k "groups" then some { r with Groups := v }
  else if eqFold k "device_one_time_keys_count" then
    match v with
    | .num n => some { r with DeviceOTKCount := n }
    | .null => some r
    | _ => none
  else if eqFold k "next_batch" then
    match v with
    | .str s => some { r with NextBatch := s }
    | .null => some r
    | _ => none
  else some r

/-- Model of `json.Unmarshal(in, &jsr)` in `PopNextBatch`: a JSON object assigns its
members in order (later duplicates overwrite), top-level `null` leaves the
zero struct, and any other top-level JSON value is a decode error. -/
def unmarshalSyncResponse : Json → Option SyncResponse
  | .obj fields => fields.foldlM (fun r kv => applyField r kv.1 kv.2) zeroSyncResponse
  | .null => some zeroSyncResponse
  | _ => none

/-- Model of `json.Marshal(jsr)` in `PopNextBatch`: emits the eight fields in struct
declaration order under their tag names (no `omitempty` is in effect, see
`SyncResponse`), so every field appears, nil interfaces as `null`. -/
def marshalSyncResponse (r : SyncResponse) : Json :=
  .obj [("account_data", r.AccountData), ("to_device", r.ToDevice),
        ("device_lists", r.DeviceLists), ("presence", r.Presence),
        ("rooms", r.Rooms), ("groups", r.Groups),
        ("device_one_time_keys_count", .num r.DeviceOTKCount),
        ("next_batch", .str r.NextBatch)]

/-- Embeds `PopNextBatch` (events handler lines 206-226): unmarshal the
payload into `SyncResponse`, set `NextBatch` to the empty string, marshal
the struct back.  `none` models the `(nil, err)` return on decode failure. -/
def PopNextBatch (input : Json) : Option Json :=
  (unmarshalSyncResponse input).map fun jsr =>
    marshalSyncResponse { jsr with NextBatch := "" }

/-- Top-level keys of a JSON object (empty for non-objects). -/
def objKeys : Json → List String
  | .obj fields => fields.map Prod.fst
  | _ => []

/-- Escaping of one character inside a JSON string literal as `json.Marshal`
emits it (quote, backslash and ASCII control characters; the HTML escapes
`encoding/json` additionally applies to `<`, `>`, `&` are not needed by any
payload considered here). -/
def quoteChar (c : Char) : String :=
  if c = '"' then "\\\""
  else if c = '\\' then "\\\\"
  else if c = '\n' then "\\n"
  else if c = '\r' then "\\r"
  else if c = '\t' then "\\t"
  else String.singleton c

/-- Escaping of a JSON string body, character by character. -/
def quoteBody : List Char → String
  | [] => ""
  | c :: cs => quoteChar c ++ quoteBody cs

mutual

/-- Compact serialization of a JSON value, as `json.Marshal` renders the
value `PopNextBatch` hands to `fmt.Fprintf("data: %s\n\n", content)`:
no whitespace, object fields in order. -/
def serializeJson : Json → String
  | .null => "null"
  | .bool b => cond b "true" "false"
  | .num n => toString n
  | .str s => "\"" ++ quoteBody s.data ++ "\""
  | .arr xs => "[" ++ serializeJsonList xs ++ "]"
  | .obj fs => "\x7b" ++ serializeJsonFields fs ++ "\x7d"

/-- Comma-separated serialization of JSON array elements. -/
def serializeJsonList : List Json → String
  | [] => ""
  | [x] => serializeJson x
  | x :: y :: xs => serializeJson x ++ "," ++ serializeJsonList (y :: xs)

/-- Comma-separated serialization of JSON object members. -/
def serializeJsonFields : List (String × Json) → String
  | [] => ""
  | [(k, v)] => "\"" ++ quoteBody k.data ++ "\":" ++ serializeJson v
  | (k, v) :: m :: fs =>
      "\"" ++ quoteBody k.data ++ "\":" ++ serializeJson v ++ "," ++
        serializeJsonFields (m :: fs)

end

/-- The bytes printed on the `data:` line of one SSE frame: the rewritten
payload, or the empty string when `PopNextBatch` failed (Go then prints the
`nil` slice; the error value itself is overwritten by the next `Sync` call
before it is ever inspected). -/
def popData (payload : Json) : String :=
  match PopNextBatch payload with
  | some j => serializeJson j
  | none => ""

/-- One observable step a handler takes, in order: HTTP response writes,
response-header sets, calls into the `proxy` package (sync, presence,
websocket send/start), the websocket upgrade, SSE body writes and flushes.
`httpPanic` marks the Go runtime panic from an out-of-bounds slice. -/
inductive Act where
  | writeError (resp : ErrResponse)
  | httpPanic
  | setHeader (key value : String)
  | updatePresence (value : String)
  | syncCall (longPoll : Bool) (cursor : String)
  | upgrade (subprotocols : List String)
  | wsSend (payload : Json)
  | wsStart
  | write (text : String)
  | flush

/-- The request data the two handlers read: method, the `Authorization`
header value (as bytes, `[]` when absent), the `access_token`, `since`,
`filter` and `presence` query parameters, the `last-event-id` header, and
whether the `http.ResponseWriter` supports `http.Flusher`. -/
structure Request where
  method : String
  authorization : GoBytes
  accessTokenParam : GoBytes
  lastEventId : String
  since : String
  filter : String
  presence : String
  flusherOk : Bool

/-- Outcome of one `client.Sync` call, supplied by an oracle since the
`proxy` package is upstream of the handler sources: on success the payload
and the new value of `client.NextSyncBatch`.
Modelled from the spec: per section 4.1 the sync client stores the
response's resumption token in the session, so the successful outcome
carries the updated cursor used by the `id:` line and the next call. -/
abbrev SyncOutcome := Except SyncErr (Json × String)

/-- Embeds `serveStream` (main.go lines 53-105; identical in the events
variant lines 141-193): reject non-GET with 405; resolve the credential
(panic modelled by `httpPanic`); set the session cursor from `since`; issue
the one-shot presence update and the initial `Sync(false)`; on error,
classify and write a plain HTTP response; on success attempt the websocket
upgrade with the single sub-protocol "m.json" and, if the upgrade succeeds
(`upgradeOk`), send the already-fetched payload and start the bridge. -/
def serveStream (req : Request) (sync0 : SyncOutcome) (upgradeOk : Bool) : List Act :=
  if req.method ≠ "GET" then [.writeError (httpError 405)]
  else
    match resolveAccessToken req.authorization req.accessTokenParam with
    | none => [.httpPanic]
    | some _ =>
      .updatePresence req.presence :: .syncCall false req.since ::
      match sync0 with
      | .error e => [.writeError (classifySyncError e)]
      | .ok (msg, _) =>
        .upgrade ["m.json"] :: if upgradeOk then [.wsSend msg, .wsStart] else []

/-- The SSE sync loop of `serveEventSource` (lines 106-135), step-indexed by
remaining fuel (`0` models a still-running loop cut off for observation).
Call `k` is `Sync(false)` for `k = 0` and `Sync(true)` afterwards, issued
with the session's current cursor; `oracle k` is its outcome and `closed k`
the value of the `connectionExists` flag (written asynchronously by the
`CloseNotify` goroutine) when the loop reads it after emitting cycle `k`'s
frame.  On error the classified response is written and the loop ends; on
success the three SSE lines are written and flushed, then the flag is
consulted before the next call. -/
def eventLoop (oracle : Nat → SyncOutcome) (closed : Nat → Bool) :
    Nat → String → Nat → List Act
  | _, _, 0 => []
  | k, cursor, fuel + 1 =>
    .syncCall (k != 0) cursor ::
    match oracle k with
    | .error e => [.writeError (classifySyncError e)]
    | .ok (payload, nb) =>
      .write ("id: " ++ nb ++ "\n") ::
      .write "event: sync\n" ::
      .write ("data: " ++ popData payload ++ "\n\n") ::
      .flush ::
      (if closed k then [] else eventLoop oracle closed (k + 1) nb fuel)

/-- The four response headers `serveEventSource` sets before the first sync
(lines 101-104). -/
def sseHeaders : List Act :=
  [.setHeader "Content-Type" "text/event-stream",
   .setHeader "Cache-Control" "no-cache",
   .setHeader "Connection" "keep-alive",
   .setHeader "Access-Control-Allow-Origin" "*"]

/-- Embeds `serveEventSource` (lines 53-137): reject non-GET with 405;
reject writers without flushing support with a 500 "Streaming unsupported!";
resolve the credential (panic modelled by `httpPanic`); resolve the initial
cursor from the `last-event-id` header, falling back to `since`; set the
SSE headers; run the sync loop. -/
def serveEventSource (req : Request) (oracle : Nat → SyncOutcome)
    (closed : Nat → Bool) (fuel : Nat) : List Act :=
  if req.method ≠ "GET" then [.writeError (httpError 405)]
  else if !req.flusherOk then
    [.writeError { status := 500, contentType := "text/plain; charset=utf-8",
                   body := asciiBytes "Streaming unsupported!" ++ [10] }]
  else
    match resolveAccessToken req.authorization req.accessTokenParam with
    | none => [.httpPanic]
    | some _ =>
      sseHeaders ++
        eventLoop oracle closed 0 (resolveNextSyncBatch req.lastEventId req.since) fuel

/-- Recognizer for upstream sync calls in a trace. -/
def isSyncCall : Act → Bool
  | .syncCall _ _ => true
  | _ => false

/-- Recognizer for upstream presence calls in a trace. -/
def isUpdatePresence : Act → Bool
  | .updatePresence _ => true
  | _ => false

/-- The part of one `eventLoop` cycle after its sync call: the error write,
or the SSE frame followed by the rest of the loop. -/
def eventLoopTail (oracle : Nat → SyncOutcome) (closed : Nat → Bool)
    (j fuel : Nat) : List Act :=
  match oracle j with
  | .error e => [.writeError (classifySyncError e)]
  | .ok (payload, nb) =>
    .write ("id: " ++ nb ++ "\n") ::
    .write "event: sync\n" ::
    .write ("data: " ++ popData payload ++ "\n\n") ::
    .flush ::
    (if closed j then [] else eventLoop oracle closed (j + 1) nb fuel)

/-- C4: on both endpoints, a non-empty authorization header takes precedence:
whenever credential resolution produces a value, that value is the header
value itself (the `Bearer `-stripping branch compares a 6-byte slice with the
7-byte literal and can never fire), and the `access_token` parameter is
resolved only when the header is empty. -/
theorem c4_authorization_header_precedence (auth param : GoBytes) :
    (auth ≠ [] → ∀ t, resolveAccessToken auth param = some t → t = auth) ∧
    (auth = [] → resolveAccessToken auth param = some param) := by
  constructor
  · intro hne t ht
    unfold resolveAccessToken at ht
    rw [if_pos hne] at ht
    by_cases h6 : 6 ≤ auth.length
    · rw [if_pos h6] at ht
      have hlen : (auth.take 6).length = 6 := by
        simp [List.length_take, Nat.min_eq_left h6]
      have hne7 : auth.take 6 ≠ bearerLiteral := by
        intro heq
        have : (auth.take 6).length = bearerLiteral.length := by rw [heq]
        simp [hlen, bearerLiteral] at this
      rw [if_neg hne7] at ht
      exact (Option.some.injEq _ _ ▸ ht).symm
    · rw [if_neg h6] at ht
      exact absurd ht (by simp)
  · intro he
    unfold resolveAccessToken
    rw [if_neg (by simp [he])]

/-- Witness for C4 at a concrete input: header bytes "secret" (6 bytes),
parameter bytes "other". -/
theorem c4_authorization_header_precedence_witness :
    ([115, 101, 99, 114, 101, 116] : GoBytes) ≠ [] ∧
    (∀ t, resolveAccessToken [115, 101, 99, 114, 101, 116] [111, 116, 104, 101, 114] = some t →
      t = [115, 101, 99, 114, 101, 116]) ∧
    resolveAccessToken [] [111, 116, 104, 101, 114] = some [111, 116, 104, 101, 114] :=
  ⟨by decide,
   (c4_authorization_header_precedence [115, 101, 99, 114, 101, 116] [111, 116, 104, 101, 114]).1
     (by decide),
   (c4_authorization_header_precedence [] [111, 116, 104, 101, 114]).2 rfl⟩

/-- C10: for every authorization header of byte length at least 7 that begins
with the bytes of `"Bearer "`, the resolved credential is the entire header
value, prefix included: `accessToken[0:6]` is a 6-byte string and can never
equal the 7-byte literal `"Bearer "`, so the stripping assignment
`accessToken = accessToken[7:]` is dead code. -/
theorem c10_bearer_prefix_never_stripped (auth param : GoBytes)
    (hpre : auth.take 7 = bearerLiteral) (hlen : 7 ≤ auth.length) :
    resolveAccessToken auth param = some auth := by
  have h6 : 6 ≤ auth.length := le_trans (by norm_num) hlen
  have hne : auth ≠ [] := by
    intro h
    rw [h] at hlen
    simp at hlen
  have hne7 : auth.take 6 ≠ bearerLiteral := by
    intro heq
    have h1 : (auth.take 6).length = 6 := by
      simp [List.length_take, Nat.min_eq_left h6]
    have h2 : (auth.take 6).length = bearerLiteral.length := by rw [heq]
    simp [h1, bearerLiteral] at h2
  unfold resolveAccessToken
  rw [if_pos hne, if_pos h6, if_neg hne7]

/-- Witness for C10 at the concrete header bytes of "Bearer x" (8 bytes). -/
theorem c10_bearer_prefix_never_stripped_witness :
    ([66, 101, 97, 114, 101, 114, 32, 120] : GoBytes).take 7 = bearerLiteral ∧
    7 ≤ ([66, 101, 97, 114, 101, 114, 32, 120] : GoBytes).length ∧
    resolveAccessToken [66, 101, 97, 114, 101, 114, 32, 120] [] =
      some [66, 101, 97, 114, 101, 114, 32, 120] :=
  ⟨by decide, by decide,
   c10_bearer_prefix_never_stripped [66, 101, 97, 114, 101, 114, 32, 120] []
     (by decide) (by decide)⟩

/-- C9: evaluation of the code at the failing input.  The 4-byte header value
"Bear" is non-empty yet shorter than 6 bytes, so `accessToken[0:6]` is out of
bounds: credential resolution faults (modelled by `none`) instead of being
well-defined, refuting the claimed bounds invariant.  Stated generally for
every non-empty header shorter than 6 bytes, and evaluated at "Bear". -/
theorem c9_short_header_slice_out_of_bounds :
    resolveAccessToken [66, 101, 97, 114] [] = none ∧
    ∀ auth param : GoBytes, auth ≠ [] → auth.length < 6 →
      resolveAccessToken auth param = none := by
  refine ⟨by decide, ?_⟩
  intro auth param hne hlt
  unfold resolveAccessToken
  rw [if_pos hne, if_neg (by omega)]

/-- C1 counterexample: on the payload `\x7b"foo": "bar"\x7d` — one non-cursor
top-level field — the rewritten data does not preserve that field: `foo` is
dropped, the eight statically-known fields appear instead, and a
`next_batch` member IS present (with value `""`, since the malformed
`,omit` tag suffix enables no `omitempty`).  This falsifies both the
"exactly those N fields, byte-identical" part and the "no cursor field"
part of the claim. -/
theorem c1_counterexample :
    PopNextBatch (Json.obj [("foo", Json.str "bar")]) =
      some (Json.obj [("account_data", Json.null), ("to_device", Json.null),
        ("device_lists", Json.null), ("presence", Json.null), ("rooms", Json.null),
        ("groups", Json.null), ("device_one_time_keys_count", Json.num 0),
        ("next_batch", Json.str "")]) ∧
    ∀ out, PopNextBatch (Json.obj [("foo", Json.str "bar")]) = some out →
      "foo" ∉ objKeys out ∧ "next_batch" ∈ objKeys out := by
  refine ⟨rfl, ?_⟩
  intro out hout
  rw [show PopNextBatch (Json.obj [("foo", Json.str "bar")]) =
      some (Json.obj [("account_data", Json.null), ("to_device", Json.null),
        ("device_lists", Json.null), ("presence", Json.null), ("rooms", Json.null),
        ("groups", Json.null), ("device_one_time_keys_count", Json.num 0),
        ("next_batch", Json.str "")]) from rfl] at hout
  cases hout
  exact ⟨by decide, by decide⟩

/-- C1 amended: for every JSON-object payload that decodes (producing struct
value `r`), the rewritten data is exactly the eight statically-known
top-level fields in declaration order, carrying the decoded values, with
`next_batch` still present but reset to the empty string; unknown input
fields are dropped and values are re-serialized from the decoded struct
rather than passed through byte-identically. -/
theorem c1_amended_rewrite (fields : List (String × Json)) (r : SyncResponse)
    (h : unmarshalSyncResponse (Json.obj fields) = some r) :
    PopNextBatch (Json.obj fields) =
      some (Json.obj [("account_data", r.AccountData), ("to_device", r.ToDevice),
        ("device_lists", r.DeviceLists), ("presence", r.Presence),
        ("rooms", r.Rooms), ("groups", r.Groups),
        ("device_one_time_keys_count", Json.num r.DeviceOTKCount),
        ("next_batch", Json.str "")]) ∧
    ∀ out, PopNextBatch (Json.obj fields) = some out →
      objKeys out = ["account_data", "to_device", "device_lists", "presence",
        "rooms", "groups", "device_one_time_keys_count", "next_batch"] := by
  unfold PopNextBatch
  rw [h]
  exact ⟨rfl, by intro out hout; cases hout; rfl⟩

/-- Witness for C1 amended, on the payload
`\x7b"rooms": \x7b\x7d, "foo": "bar", "next_batch": "s-1"\x7d`. -/
theorem c1_amended_rewrite_witness :
    unmarshalSyncResponse (Json.obj [("rooms", Json.obj []), ("foo", Json.str "bar"),
        ("next_batch", Json.str "s-1")]) =
      some { zeroSyncResponse with Rooms := Json.obj [], NextBatch := "s-1" } ∧
    PopNextBatch (Json.obj [("rooms", Json.obj []), ("foo", Json.str "bar"),
        ("next_batch", Json.str "s-1")]) =
      some (Json.obj [("account_data", Json.null), ("to_device", Json.null),
        ("device_lists", Json.null), ("presence", Json.null),
        ("rooms", Json.obj []), ("groups", Json.null),
        ("device_one_time_keys_count", Json.num 0), ("next_batch", Json.str "")]) :=
  ⟨rfl,
   (c1_amended_rewrite [("rooms", Json.obj []), ("foo", Json.str "bar"),
        ("next_batch", Json.str "s-1")]
      { zeroSyncResponse with Rooms := Json.obj [], NextBatch := "s-1" }
      rfl).1⟩

/-- C5: a sync failure classified as `MatrixError` or `HttpError` is written
with exactly the upstream's HTTP status, content-type and raw body,
unmodified; any other failure is written as the fixed generic response:
status 500, content-type `text/plain; charset=utf-8`, static body
"Internal Server Error\n" carrying no diagnostic detail. -/
theorem c5_error_classification_relay :
    (∀ (he : HttpError) (c m : String),
      classifySyncError (.matrix he c m) =
        { status := he.StatusCode, contentType := he.ContentType, body := he.Body }) ∧
    (∀ he : HttpError,
      classifySyncError (.http he) =
        { status := he.StatusCode, contentType := he.ContentType, body := he.Body }) ∧
    classifySyncError .other =
      { status := 500, contentType := "text/plain; charset=utf-8",
        body := asciiBytes "Internal Server Error" ++ [10] } :=
  ⟨fun _ _ _ => rfl, fun _ => rfl, rfl⟩

/-- C2: on the /stream endpoint the initial sync is issued strictly before
the websocket upgrade.  If the initial sync fails, the trace is exactly the
presence update, the sync call, and one plain (non-upgraded) HTTP write of
the classified error — an upgrade action never occurs.  If it succeeds, the
upgrade is attempted with the single sub-protocol "m.json" and, when the
upgrade succeeds, the already-fetched payload is the first (and only)
outbound websocket frame sent before the bridge starts. -/
theorem c2_initial_sync_before_upgrade (req : Request) (tok : GoBytes)
    (hm : req.method = "GET")
    (ht : resolveAccessToken req.authorization req.accessTokenParam = some tok) :
    (∀ e upgradeOk,
      serveStream req (.error e) upgradeOk =
        [.updatePresence req.presence, .syncCall false req.since,
         .writeError (classifySyncError e)] ∧
      ∀ sp, Act.upgrade sp ∉ serveStream req (.error e) upgradeOk) ∧
    (∀ msg nb, serveStream req (.ok (msg, nb)) true =
        [.updatePresence req.presence, .syncCall false req.since,
         .upgrade ["m.json"], .wsSend msg, .wsStart]) := by
  refine ⟨fun e u => ⟨?_, ?_⟩, fun msg nb => ?_⟩
  · simp [serveStream, hm, ht]
  · simp [serveStream, hm, ht]
  · simp [serveStream, hm, ht]

/-- Witness for C2 at a concrete request (empty header, token parameter
"t"), one failing and one succeeding initial sync. -/
theorem c2_initial_sync_before_upgrade_witness :
    (serveStream
        { method := "GET", authorization := [], accessTokenParam := [116],
          lastEventId := "", since := "s0", filter := "", presence := "online",
          flusherOk := true } (.error .other) false =
      [.updatePresence "online", .syncCall false "s0",
       .writeError (classifySyncError .other)]) ∧
    (serveStream
        { method := "GET", authorization := [], accessTokenParam := [116],
          lastEventId := "", since := "s0", filter := "", presence := "online",
          flusherOk := true } (.ok (Json.obj [], "nb")) true =
      [.updatePresence "online", .syncCall false "s0", .upgrade ["m.json"],
       .wsSend (Json.obj []), .wsStart]) := by
  have h := c2_initial_sync_before_upgrade
    { method := "GET", authorization := [], accessTokenParam := [116],
      lastEventId := "", since := "s0", filter := "", presence := "online",
      flusherOk := true } [116] rfl (by decide)
  exact ⟨(h.1 .other false).1, h.2 (Json.obj []) "nb"⟩

/-- C3: on the /events endpoint the first sync call of the trace carries the
`last-event-id` header value whenever that header is non-empty, and carries
the `since` parameter only when the header is absent or empty. -/
theorem c3_last_event_id_over_since (req : Request) (oracle : Nat → SyncOutcome)
    (closed : Nat → Bool) (fuel : Nat) (tok : GoBytes)
    (hm : req.method = "GET") (hf : req.flusherOk = true)
    (ht : resolveAccessToken req.authorization req.accessTokenParam = some tok) :
    (req.lastEventId ≠ "" →
      (serveEventSource req oracle closed (fuel + 1)).find? isSyncCall =
        some (.syncCall false req.lastEventId)) ∧
    (req.lastEventId = "" →
      (serveEventSource req oracle closed (fuel + 1)).find? isSyncCall =
        some (.syncCall false req.since)) := by
  constructor
  · intro h
    simp [serveEventSource, hm, hf, ht, sseHeaders, eventLoop, resolveNextSyncBatch, h,
          List.find?, isSyncCall]
  · intro h
    simp [serveEventSource, hm, hf, ht, sseHeaders, eventLoop, resolveNextSyncBatch, h,
          List.find?, isSyncCall]

/-- Witness for C3: with header "B1" and parameter "B2" the first sync uses
"B1"; with an empty header it uses "B2". -/
theorem c3_last_event_id_over_since_witness :
    ((serveEventSource
        { method := "GET", authorization := [], accessTokenParam := [],
          lastEventId := "B1", since := "B2", filter := "", presence := "",
          flusherOk := true } (fun _ => .error .other) (fun _ => false) 1).find?
        isSyncCall = some (.syncCall false "B1")) ∧
    ((serveEventSource
        { method := "GET", authorization := [], accessTokenParam := [],
          lastEventId := "", since := "B2", filter := "", presence := "",
          flusherOk := true } (fun _ => .error .other) (fun _ => false) 1).find?
        isSyncCall = some (.syncCall false "B2")) := by
  constructor
  · exact (c3_last_event_id_over_since
      { method := "GET", authorization := [], accessTokenParam := [],
        lastEventId := "B1", since := "B2", filter := "", presence := "",
        flusherOk := true } (fun _ => .error .other) (fun _ => false) 0 []
      rfl rfl (by decide)).1 (by decide)
  · exact (c3_last_event_id_over_since
      { method := "GET", authorization := [], accessTokenParam := [],
        lastEventId := "", since := "B2", filter := "", presence := "",
        flusherOk := true } (fun _ => .error .other) (fun _ => false) 0 []
      rfl rfl (by decide)).2 rfl

/-- C8: a non-GET request to either endpoint produces exactly one plain HTTP
error write — status 405, body "Method Not Allowed" plus newline — and the
trace contains no upstream call of any kind: no sync call and no presence
call. -/
theorem c8_non_get_rejected (req : Request) (sync0 : SyncOutcome) (upgradeOk : Bool)
    (oracle : Nat → SyncOutcome) (closed : Nat → Bool) (fuel : Nat)
    (hm : req.method ≠ "GET") :
    serveStream req sync0 upgradeOk = [.writeError (httpError 405)] ∧
    serveEventSource req oracle closed fuel = [.writeError (httpError 405)] ∧
    (httpError 405).status = 405 ∧
    (httpError 405).body = asciiBytes "Method Not Allowed" ++ [10] ∧
    (∀ a ∈ serveStream req sync0 upgradeOk,
      isSyncCall a = false ∧ isUpdatePresence a = false) ∧
    (∀ a ∈ serveEventSource req oracle closed fuel,
      isSyncCall a = false ∧ isUpdatePresence a = false) := by
  refine ⟨?_, ?_, rfl, rfl, ?_, ?_⟩
  · simp [serveStream, hm]
  · simp [serveEventSource, hm]
  · intro a ha
    simp [serveStream, hm] at ha
    subst ha
    exact ⟨rfl, rfl⟩
  · intro a ha
    simp [serveEventSource, hm] at ha
    subst ha
    exact ⟨rfl, rfl⟩

/-- Witness for C8 at a concrete POST request. -/
theorem c8_non_get_rejected_witness :
    serveStream
        { method := "POST", authorization := [], accessTokenParam := [],
          lastEventId := "", since := "", filter := "", presence := "",
          flusherOk := true } (.error .other) false =
      [.writeError (httpError 405)] ∧
    serveEventSource
        { method := "POST", authorization := [], accessTokenParam := [],
          lastEventId := "", since := "", filter := "", presence := "",
          flusherOk := true } (fun _ => .error .other) (fun _ => false) 3 =
      [.writeError (httpError 405)] := by
  have h := c8_non_get_rejected
    { method := "POST", authorization := [], accessTokenParam := [],
      lastEventId := "", since := "", filter := "", presence := "",
      flusherOk := true } (.error .other) false (fun _ => .error .other)
    (fun _ => false) 3 (by decide)
  exact ⟨h.1, h.2.1⟩

/-- With fuel left, a loop iteration always begins with its sync call. -/
theorem eventLoop_succ (oracle : Nat → SyncOutcome) (closed : Nat → Bool)
    (j fuel : Nat) (c : String) :
    eventLoop oracle closed j c (fuel + 1) =
      .syncCall (j != 0) c :: eventLoopTail oracle closed j fuel := rfl

/-- C7: every successful sync cycle on the /events endpoint emits, in order,
the identifier line carrying the session's current cursor, the fixed event
line `event: sync`, the data line carrying the rewritten JSON followed by the
blank line (the trailing second newline), and then flushes immediately: no
other action stands between the three writes and the flush, and whatever
follows the flush is either the end of the trace or the next sync call. -/
theorem c7_sse_frame_format (oracle : Nat → SyncOutcome) (closed : Nat → Bool)
    (k fuel : Nat) (cursor : String) (payload : Json) (nb : String)
    (ho : oracle k = .ok (payload, nb)) :
    ∃ rest, (eventLoop oracle closed k cursor (fuel + 1) =
        .syncCall (k != 0) cursor ::
        .write ("id: " ++ nb ++ "\n") ::
        .write "event: sync\n" ::
        .write ("data: " ++ popData payload ++ "\n\n") ::
        .flush :: rest) ∧
      (rest = [] ∨ ∃ lp c rest2, rest = .syncCall lp c :: rest2) := by
  refine ⟨if closed k then [] else eventLoop oracle closed (k + 1) nb fuel, ?_, ?_⟩
  · simp only [eventLoop, ho]
  · cases hc : closed k with
    | true => left; simp
    | false =>
      cases fuel with
      | zero => left; simp [eventLoop]
      | succ f =>
        right
        refine ⟨(k + 1 != 0), nb, eventLoopTail oracle closed (k + 1) f, ?_⟩
        simp only [Bool.false_eq_true, if_false]
        exact eventLoop_succ oracle closed (k + 1) f nb

/-- Witness for C7 at a concrete cycle (k = 1, always-open connection). -/
theorem c7_sse_frame_format_witness :
    ∃ rest, (eventLoop (fun _ => .ok (Json.obj [("foo", Json.str "bar")], "nb1"))
        (fun _ => false) 1 "nb0" 2 =
        .syncCall (1 != 0) "nb0" ::
        .write ("id: " ++ "nb1" ++ "\n") ::
        .write "event: sync\n" ::
        .write ("data: " ++ popData (Json.obj [("foo", Json.str "bar")]) ++ "\n\n") ::
        .flush :: rest) ∧
      (rest = [] ∨ ∃ lp c rest2, rest = .syncCall lp c :: rest2) :=
  c7_sse_frame_format (fun _ => .ok (Json.obj [("foo", Json.str "bar")], "nb1"))
    (fun _ => false) 1 1 "nb0" (Json.obj [("foo", Json.str "bar")]) "nb1" rfl

/-- Helper for C6: once the `connectionExists` flag reads false at boundary
`k`, a loop started at call index `j ≤ k` issues at most `k + 1 - j` sync
calls, whatever the per-cycle outcomes and whatever the fuel. -/
theorem eventLoop_syncCalls_le (oracle : Nat → SyncOutcome) (closed : Nat → Bool)
    (k : Nat) (hk : closed k = true) :
    ∀ fuel j cursor, j ≤ k →
      ((eventLoop oracle closed j cursor fuel).countP isSyncCall) ≤ k + 1 - j := by
  intro fuel
  induction fuel with
  | zero =>
    intro j cursor hj
    simp [eventLoop]
  | succ f ih =>
    intro j cursor hj
    unfold eventLoop
    cases ho : oracle j with
    | error e =>
      simp [List.countP_cons, isSyncCall]
      omega
    | ok pr =>
      obtain ⟨p, nb⟩ := pr
      cases hc : closed j with
      | true =>
        simp [List.countP_cons, isSyncCall]
        omega
      | false =>
        have hjk : j ≠ k := by
          intro h
          rw [h, hk] at hc
          cases hc
        have hrec := ih (j + 1) nb (by omega)
        simp [List.countP_cons, isSyncCall]
        omega

/-- C6: on the /events endpoint, once client-side closure has been observed
at iteration boundary `k` (after cycle `k`'s frame was emitted and flushed),
the whole trace contains at most `k + 1` upstream sync calls — none beyond
the one that was already in flight — and the detection never truncates the
in-flight cycle: cycle `k` itself still emits its full frame and flush
before the loop stops. -/
theorem c6_closure_stops_polls (req : Request) (oracle : Nat → SyncOutcome)
    (closed : Nat → Bool) (fuel k : Nat) (tok : GoBytes)
    (hm : req.method = "GET") (hf : req.flusherOk = true)
    (ht : resolveAccessToken req.authorization req.accessTokenParam = some tok)
    (hk : closed k = true) :
    ((serveEventSource req oracle closed fuel).countP isSyncCall) ≤ k + 1 ∧
    (∀ cursor payload nb f, oracle k = .ok (payload, nb) →
      eventLoop oracle closed k cursor (f + 1) =
        [.syncCall (k != 0) cursor,
         .write ("id: " ++ nb ++ "\n"), .write "event: sync\n",
         .write ("data: " ++ popData payload ++ "\n\n"), .flush]) := by
  constructor
  · have h0 := eventLoop_syncCalls_le oracle closed k hk fuel 0
      (resolveNextSyncBatch req.lastEventId req.since) (Nat.zero_le k)
    simp only [serveEventSource, hm, hf] at *
    simp [ht, sseHeaders, List.countP_cons, List.countP_append, isSyncCall]
    omega
  · intro cursor payload nb f ho
    unfold eventLoop
    rw [ho, hk]
    simp

/-- Witness for C6: connection observed closed at the very first boundary
(k = 0), successful cycles throughout, fuel 3. -/
theorem c6_closure_stops_polls_witness :
    ((serveEventSource
        { method := "GET", authorization := [], accessTokenParam := [],
          lastEventId := "", since := "s0", filter := "", presence := "",
          flusherOk := true } (fun _ => .ok (Json.null, "nb1")) (fun _ => true)
        3).countP isSyncCall) ≤ 1 ∧
    eventLoop (fun _ => .ok (Json.null, "nb1")) (fun _ => true) 0 "s0" 3 =
      [.syncCall (0 != 0) "s0",
       .write ("id: " ++ "nb1" ++ "\n"), .write "event: sync\n",
       .write ("data: " ++ popData Json.null ++ "\n\n"), .flush] := by
  have h := c6_closure_stops_polls
    { method := "GET", authorization := [], accessTokenParam := [],
      lastEventId := "", since := "s0", filter := "", presence := "",
      flusherOk := true } (fun _ => .ok (Json.null, "nb1")) (fun _ => true) 3 0 []
    rfl rfl (by decide) rfl
  exact ⟨h.1, h.2 "s0" Json.null "nb1" 2 rfl⟩
